import Mathlib

/-!
Verification development for the storage-migration dashboard backend
(`scripts/storage/dashboard/app.py`).

The Python module is a Flask app.  The parts relevant to the claims are
embedded shallowly below:

* the persisted job-status JSON document (`STATUS_FILE`) as `JobStatus`,
  with absent keys represented by `none`;
* `load_json_file` / the status and transfers endpoints, with the file
  read outcome made explicit as a `ReadResult` input;
* the `/api/start` and `/api/stop` request handlers;
* the `run_migration` background worker's three status writes (the
  initial running write, the exit-code write, and the exception write);
* the global `update_queue` (a single shared FIFO `queue.Queue`) and the
  `/api/events` generator with its 30-second `get` timeout, modelled as a
  step function over discrete time.

Timestamps (`time.time()`) are modelled as natural-number time units.
-/

/-- The persisted job-status document written to `STATUS_FILE`.  Each field
is a JSON key that may be absent (`none`).  The Python code stores a dict;
the keys ever touched by the program are exactly these six. -/
structure JobStatus where
  state : Option String
  source : Option String
  target : Option String
  start_time : Option Nat
  end_time : Option Nat
  error : Option String
deriving DecidableEq

/-- The empty JSON document: what `load_json_file` yields when reading
fails and no explicit default was passed (`return default or \x7b\x7d`,
app.py line 58). -/
def emptyStatus : JobStatus :=
  { state := none, source := none, target := none,
    start_time := none, end_time := none, error := none }

/-- The document `save_json_file(STATUS_FILE, \x7b'state': 'idle'\x7d)`
written at server startup (app.py line 213). -/
def idleStatus : JobStatus :=
  { emptyStatus with state := some "idle" }

/-- Outcome of attempting to read a JSON file from disk: either the parsed
document, or a failure (missing file, unreadable file, malformed JSON —
the bare `except:` in `load_json_file` catches them all alike). -/
inductive ReadResult (α : Type) where
  | ok (value : α)
  | err (msg : String)
deriving DecidableEq

/-- `load_json_file(STATUS_FILE)` (app.py lines 53-58) specialised to the
status document: on any read failure it returns the empty document, since
the call sites for the status file pass no `default`. -/
def load_status (read : ReadResult JobStatus) : JobStatus :=
  match read with
  | ReadResult.ok v => v
  | ReadResult.err _ => emptyStatus

/-- `if not os.path.exists(STATUS_FILE): save_json_file(STATUS_FILE,
\x7b'state': 'idle'\x7d)` (app.py lines 212-213): the status document
after startup initialisation, given whether the file was present and its
prior contents. -/
def init_status_file (present : Bool) (prior : JobStatus) : JobStatus :=
  if present then prior else idleStatus

/-- An HTTP response of a route: `ok` is a 200 with a body, `serverError`
a 500. -/
inductive HttpResult (α : Type) where
  | ok (body : α)
  | serverError (msg : String)
deriving DecidableEq

/-- Body of the `/api/status` response (app.py lines 85-93).  The
`system_metrics` field is instantaneous host data from `psutil`, an
external collaborator outside the claims, so it is not modelled. -/
structure StatusResponse where
  status : JobStatus
  timestamp : Nat
deriving DecidableEq

/-- `/api/status` (app.py lines 85-93): loads the status file via
`load_json_file` — which swallows every read failure — and always builds
a 200 response. -/
def get_status (read : ReadResult JobStatus) (now : Nat) : HttpResult StatusResponse :=
  HttpResult.ok { status := load_status read, timestamp := now }

/-- One entry of the `transfers` list in the historical-metrics document.
`success` is the truthiness of `t.get('success')` (absent or falsy keys
count as `false`). -/
structure Transfer where
  success : Bool
deriving DecidableEq

/-- The historical-metrics JSON document as far as `/api/transfers` reads
it: `metrics.get('transfers', [])` — the key may be absent. -/
structure MetricsDoc where
  transfers : Option (List Transfer)
deriving DecidableEq

/-- The metrics document `load_json_file(METRICS_FILE)` yields on a read
failure: the empty dict, whose `transfers` key is absent. -/
def emptyMetrics : MetricsDoc :=
  { transfers := none }

/-- `load_json_file(METRICS_FILE)` (app.py lines 53-58, call at 107). -/
def load_metrics (read : ReadResult MetricsDoc) : MetricsDoc :=
  match read with
  | ReadResult.ok v => v
  | ReadResult.err _ => emptyMetrics

/-- The `success_rate` expression of `/api/transfers` (app.py lines
111-112): `sum(1 for t in transfers if t.get('success')) /
max(len(transfers), 1) * 100`, in exact rational arithmetic. -/
def success_rate (ts : List Transfer) : ℚ :=
  (((ts.filter fun t => t.success).length : ℚ) / ((max ts.length 1 : Nat) : ℚ)) * 100

/-- Body of the `/api/transfers` response (app.py lines 105-113). -/
structure TransfersResponse where
  transfers : List Transfer
  total_count : Nat
  rate : ℚ
deriving DecidableEq

/-- `/api/transfers` (app.py lines 105-113): reads the metrics document
(falling back to the empty dict on failure), defaults the `transfers` key
to `[]`, and computes the response. -/
def get_transfers (read : ReadResult MetricsDoc) : HttpResult TransfersResponse :=
  match (load_metrics read).transfers.getD [] with
  | ts => HttpResult.ok { transfers := ts, total_count := ts.length, rate := success_rate ts }

/-- A one-element transfers list used to instantiate universally
quantified statements at a concrete input. -/
def sampleTransfers : List Transfer :=
  [{ success := true }]

/-- Python truthiness test `not x` for `params.get(k)`: the key is absent
(`None`) or its value is the empty string. -/
def falsy (x : Option String) : Bool :=
  match x with
  | none => true
  | some s => s.isEmpty

/-- Result of the `/api/start` handler: `badRequest` is the 400 response
with no background thread spawned; `accepted` is the 200 `started`
acknowledgment, with a `run_migration(source, target)` thread spawned. -/
inductive StartResult where
  | badRequest (msg : String)
  | accepted (source target : String)
deriving DecidableEq

/-- The `/api/start` handler `start_migration` (app.py lines 124-137).
It validates `source`/`target` from the request body and otherwise spawns
the worker thread and returns at once.  The handler takes the currently
persisted record as an argument only so that theorems can quantify over
it: no branch of the source reads the status file or any other job state
before spawning. -/
def start_migration (persisted : JobStatus) (source target : Option String) : StartResult :=
  if falsy source || falsy target then
    StartResult.badRequest "Source and target are required"
  else
    StartResult.accepted (source.getD "") (target.getD "")

/-- The `/api/stop` handler `stop_migration` (app.py lines 139-145) as its
effect on the persisted record: load the current document, overwrite the
`state` key with `'stopping'`, save.  The HTTP response is a constant 200
and no exception can arise from the load (it swallows failures). -/
def stop_migration (s : JobStatus) : JobStatus :=
  { s with state := some "stopping" }

/-- The first status write of `run_migration` (app.py lines 164-166): a
fresh dict — previous `end_time`/`error` keys are not carried over. -/
def startWrite (source target : String) (t0 : Nat) : JobStatus :=
  { state := some "running", source := some source, target := some target,
    start_time := some t0, end_time := none, error := none }

/-- The final status write of `run_migration` when the child process
exits (app.py lines 189-192): mutates the same dict written at start —
`state` from the exit code, `end_time` from the clock; no `error` key is
ever added on this path. -/
def finalWrite (w : JobStatus) (code : Int) (t1 : Nat) : JobStatus :=
  { w with state := some (if code = 0 then "completed" else "failed"),
           end_time := some t1 }

/-- The status write of `run_migration`'s `except` handler (app.py lines
194-198): reload the persisted document, set `state` to `'failed'` and
`error` to the exception text, save.  `end_time` is not touched. -/
def exnWrite (persisted : JobStatus) (msg : String) : JobStatus :=
  { persisted with state := some "failed", error := some msg }

/-- `run_migration` on the path where the child process is spawned and
exits with `code` (app.py lines 162-192): the persisted record after the
final write, given the clock readings `t0` (start) and `t1` (end). -/
def run_migration_exit (source target : String) (t0 t1 : Nat) (code : Int) : JobStatus :=
  finalWrite (startWrite source target t0) code t1

/-- `run_migration` on the path where spawning or reading raises right
after the initial status write (e.g. the migration script is missing):
the record after the `except` handler runs (app.py lines 194-198). -/
def run_migration_exn (source target : String) (t0 : Nat) (msg : String) : JobStatus :=
  exnWrite (startWrite source target t0) msg

/-- The invariant claimed for every persisted record: `end_time` present
iff the state is terminal, `error` present iff the state is `failed`. -/
def statusInvariant (r : JobStatus) : Prop :=
  (r.end_time.isSome ↔ (r.state = some "completed" ∨ r.state = some "failed")) ∧
  (r.error.isSome ↔ r.state = some "failed")

instance (r : JobStatus) : Decidable (statusInvariant r) := by
  unfold statusInvariant; infer_instance

/-- An event placed on `update_queue`: a progress line (app.py lines
183-187, message already stripped), an error report (lines 199-203), or
the synthetic heartbeat the event stream emits on timeout (line 155). -/
inductive Event where
  | progress (message : String) (timestamp : Nat)
  | error (message : String) (timestamp : Nat)
  | heartbeat
deriving DecidableEq

/-- `update_queue.put(e)` (app.py lines 183, 199): the program has ONE
global FIFO queue shared by the worker and every `/api/events` connection
(line 51); publishing appends to it. -/
def publish (q : List Event) (e : Event) : List Event :=
  q ++ [e]

/-- A subscriber's non-blocking view of `update_queue.get()`: pop the
oldest queued event, if any.  Because the queue is global, whichever
connection calls `get` first consumes the event for everyone. -/
def subscriberGet (q : List Event) : Option (Event × List Event) :=
  match q with
  | [] => none
  | e :: rest => some (e, rest)

/-- One iteration of the `/api/events` generator loop (app.py lines
149-155): `update_queue.get(timeout=30)`.  State: current time `t`, the
queued events, and the future arrivals `(time, event)` in time order.
If an event is already queued it is yielded immediately; otherwise the
call blocks until the next arrival, or yields a heartbeat once 30 time
units pass with nothing arriving.  Returns the `(time, yielded event)`
pair and the successor queue/arrival state. -/
def genStep (t : Nat) (q : List Event) (arrivals : List (Nat × Event)) :
    (Nat × Event) × List Event × List (Nat × Event) :=
  match q with
  | e :: rest => ((t, e), rest, arrivals)
  | [] =>
    match arrivals with
    | [] => ((t + 30, Event.heartbeat), [], [])
    | (ta, e) :: rest =>
      if ta ≤ t + 30 then ((max t ta, e), [], rest)
      else ((t + 30, Event.heartbeat), [], (ta, e) :: rest)

/-- `n` iterations of the `/api/events` generator loop, from time `t`,
collecting the `(time, event)` pairs it yields. -/
def genRun : Nat → Nat → List Event → List (Nat × Event) → List (Nat × Event)
  | 0, _, _, _ => []
  | Nat.succ n, t, q, arr =>
    match genStep t q arr with
    | (out, q', arr') => out :: genRun n out.1 q' arr'

/-- With nothing queued and nothing arriving, the generator yields exactly
one heartbeat at the close of each successive 30-unit window. -/
lemma genRun_idle (n : Nat) : ∀ t : Nat,
    genRun n t [] [] = (List.range n).map fun i => (t + 30 * (i + 1), Event.heartbeat) := by
  induction n with
  | zero => intro t; rfl
  | succ n ih =>
    intro t
    have h1 : genRun (n + 1) t [] [] =
        (t + 30, Event.heartbeat) :: genRun n (t + 30) [] [] := rfl
    rw [h1, ih (t + 30), List.range_succ_eq_map, List.map_cons, List.map_map]
    congr 1
    refine List.map_congr_left ?_
    intro i hi
    simp only [Function.comp_apply, Prod.mk.injEq, and_true]
    omega

/-- C1: the claim of a broadcast bus with no replay fails on the code.
The program keeps ONE global `update_queue` shared by the worker and all
`/api/events` connections, so an event published before a subscriber
connects is retained and handed to that late subscriber (replay), and
once one subscriber has consumed it the queue is empty and a second
subscriber receives nothing (no per-subscriber delivery).  This theorem
evaluates the embedded queue at the failing input. -/
theorem c1_shared_queue_replay :
    subscriberGet (publish [] (Event.progress "line1" 5)) =
      some (Event.progress "line1" 5, []) ∧
    subscriberGet ([] : List Event) = none :=
  ⟨rfl, rfl⟩

/-- C2: `start_migration` never consults the persisted job state — a
Start request issued while the record says `running` is accepted and a
second worker thread spawns, instead of failing with a ConflictError. -/
theorem c2_start_ignores_running_state :
    start_migration
      { state := some "running", source := some "x", target := some "y",
        start_time := some 0, end_time := none, error := none }
      (some "a") (some "b") = StartResult.accepted "a" "b" := by
  decide

/-- C3 counterexample: a run whose child exits with code 1 ends in state
`failed` with no `error` key at all — the exit path never writes the
non-empty error string the claim requires. -/
theorem c3_nonzero_exit_has_no_error :
    (run_migration_exit "a" "b" 0 1 1).state = some "failed" ∧
    (run_migration_exit "a" "b" 0 1 1).error = none := by
  decide

/-- C3 amended: on process exit the final state is `completed` for exit
code 0 and `failed` otherwise, `start_time`/`end_time` record the two
clock readings (so end ≥ start whenever the clock is monotone), and no
error string is recorded on this path — `error` is written only by the
exception handler. -/
theorem c3_exit_status (source target : String) (t0 t1 : Nat) (code : Int)
    (hmono : t0 ≤ t1) :
    (run_migration_exit source target t0 t1 code).state =
      some (if code = 0 then "completed" else "failed") ∧
    (run_migration_exit source target t0 t1 code).start_time = some t0 ∧
    (run_migration_exit source target t0 t1 code).end_time = some t1 ∧
    t0 ≤ t1 ∧
    (run_migration_exit source target t0 t1 code).error = none :=
  ⟨rfl, rfl, rfl, hmono, rfl⟩

/-- C3 witness: the amended statement evaluated at a concrete successful
run with start time 2 and end time 5. -/
theorem c3_exit_status_witness :
    (run_migration_exit "a" "b" 2 5 0).state =
      some (if (0 : Int) = 0 then "completed" else "failed") ∧
    (run_migration_exit "a" "b" 2 5 0).start_time = some 2 ∧
    (run_migration_exit "a" "b" 2 5 0).end_time = some 5 ∧
    2 ≤ 5 ∧
    (run_migration_exit "a" "b" 2 5 0).error = none :=
  c3_exit_status "a" "b" 2 5 0 (by norm_num)

/-- C4 counterexample: the exception path (for example the migration
script missing, raising right after the initial write) produces state
`failed` with `end_time` absent — a termination write violating the
claimed invariant that every termination path sets `end_time`. -/
theorem c4_exn_path_misses_end_time :
    (run_migration_exn "a" "b" 0 "boom").state = some "failed" ∧
    (run_migration_exn "a" "b" 0 "boom").end_time = none := by
  decide

/-- C4 amended: the Start-acceptance write and the exit-code-0 write do
preserve the invariant (`end_time` iff terminal, `error` iff failed); but
the nonzero-exit write sets `end_time` while omitting `error`, the
exception write sets `error` while leaving `end_time` absent, and Stop
rewrites only `state`, carrying over stale `end_time`/`error` verbatim. -/
theorem c4_write_paths (source target msg : String) (t0 t1 : Nat)
    (code : Int) (hc : code ≠ 0) (prev : JobStatus) :
    statusInvariant (startWrite source target t0) ∧
    statusInvariant (run_migration_exit source target t0 t1 0) ∧
    ((run_migration_exit source target t0 t1 code).state = some "failed" ∧
     (run_migration_exit source target t0 t1 code).end_time = some t1 ∧
     (run_migration_exit source target t0 t1 code).error = none) ∧
    ((run_migration_exn source target t0 msg).state = some "failed" ∧
     (run_migration_exn source target t0 msg).error = some msg ∧
     (run_migration_exn source target t0 msg).end_time = none) ∧
    ((stop_migration prev).state = some "stopping" ∧
     (stop_migration prev).end_time = prev.end_time ∧
     (stop_migration prev).error = prev.error) := by
  refine ⟨by simp [statusInvariant, startWrite],
          by simp [statusInvariant, run_migration_exit, finalWrite, startWrite],
          ⟨?_, rfl, rfl⟩, ⟨rfl, rfl, rfl⟩, rfl, rfl, rfl⟩
  show (finalWrite (startWrite source target t0) code t1).state = some "failed"
  simp [finalWrite, hc]

/-- C4 witness: the amended statement evaluated at a concrete failing run
(exit code 1) against the empty prior record. -/
theorem c4_write_paths_witness :
    statusInvariant (startWrite "a" "b" 0) ∧
    statusInvariant (run_migration_exit "a" "b" 0 1 0) ∧
    ((run_migration_exit "a" "b" 0 1 1).state = some "failed" ∧
     (run_migration_exit "a" "b" 0 1 1).end_time = some 1 ∧
     (run_migration_exit "a" "b" 0 1 1).error = none) ∧
    ((run_migration_exn "a" "b" 0 "boom").state = some "failed" ∧
     (run_migration_exn "a" "b" 0 "boom").error = some "boom" ∧
     (run_migration_exn "a" "b" 0 "boom").end_time = none) ∧
    ((stop_migration emptyStatus).state = some "stopping" ∧
     (stop_migration emptyStatus).end_time = emptyStatus.end_time ∧
     (stop_migration emptyStatus).error = emptyStatus.error) :=
  c4_write_paths "a" "b" "boom" 0 1 1 (by norm_num) emptyStatus

/-- C5: over any idle stretch (empty queue, no arrivals), `n` iterations
of the `/api/events` generator yield exactly one heartbeat per 30-unit
window, at times t+30, t+60, …, t+30n — neither zero nor a burst; and
whenever real events are already queued the generator yields the oldest
queued event, so a heartbeat never overtakes queued real events. -/
theorem c5_heartbeat_discipline (n t : Nat) (e : Event) (q : List Event)
    (arr : List (Nat × Event)) :
    genRun n t [] [] =
      ((List.range n).map fun i => (t + 30 * (i + 1), Event.heartbeat)) ∧
    (genStep t (e :: q) arr).1.2 = e :=
  ⟨genRun_idle n t, rfl⟩

/-- C6: `/api/transfers` computes `success_rate` as the share of entries
with a truthy success flag, times 100: for a non-empty list the
`max(len, 1)` guard equals the length, so the rate is count/total·100;
the sample list true/false/true yields 200/3, within rounding distance
of 66.67; and the empty list yields 0 with no division fault (the guard
makes the denominator 1). -/
theorem c6_success_rate (ts : List Transfer) (h : ts ≠ []) :
    get_transfers (ReadResult.ok { transfers := some ts }) =
      HttpResult.ok
        { transfers := ts, total_count := ts.length,
          rate := ((ts.filter fun t => t.success).length : ℚ) / (ts.length : ℚ) * 100 } ∧
    success_rate [⟨true⟩, ⟨false⟩, ⟨true⟩] = 200 / 3 ∧
    |(200 / 3 : ℚ) - 6667 / 100| < 1 / 100 ∧
    success_rate [] = 0 := by
  have h1 : 1 ≤ ts.length := List.length_pos.mpr h
  refine ⟨?_, by norm_num [success_rate, List.filter], by norm_num [abs], ?_⟩
  · simp [get_transfers, load_metrics, success_rate, Nat.max_eq_left h1]
  · norm_num [success_rate]

/-- C6 witness: the statement applied at the concrete one-element list. -/
theorem c6_success_rate_witness :
    get_transfers (ReadResult.ok { transfers := some sampleTransfers }) =
      HttpResult.ok
        { transfers := sampleTransfers, total_count := sampleTransfers.length,
          rate := ((sampleTransfers.filter fun t => t.success).length : ℚ) /
            (sampleTransfers.length : ℚ) * 100 } ∧
    success_rate [⟨true⟩, ⟨false⟩, ⟨true⟩] = 200 / 3 ∧
    |(200 / 3 : ℚ) - 6667 / 100| < 1 / 100 ∧
    success_rate [] = 0 :=
  c6_success_rate sampleTransfers (by simp [sampleTransfers])

/-- C7: the `/api/start` handler returns the 400 response, spawning
nothing, exactly when the request body's `source` or `target` is absent
or the empty string; otherwise both are non-empty strings and the handler
answers with the `started` acknowledgment after spawning the worker. -/
theorem c7_start_validation (persisted : JobStatus) (source target : Option String) :
    ((falsy source || falsy target) = true →
      start_migration persisted source target =
        StartResult.badRequest "Source and target are required") ∧
    ((falsy source || falsy target) = false →
      ∃ s t, source = some s ∧ s ≠ "" ∧ target = some t ∧ t ≠ "" ∧
        start_migration persisted source target = StartResult.accepted s t) := by
  constructor
  · intro h
    simp [start_migration, h]
  · intro h
    rw [Bool.or_eq_false_iff] at h
    rcases source with _ | s
    · simp [falsy] at h
    rcases target with _ | t
    · simp [falsy] at h
    refine ⟨s, t, rfl, ?_, rfl, ?_, ?_⟩
    · intro hs
      subst hs
      exact absurd h.1 (by decide)
    · intro ht
      subst ht
      exact absurd h.2 (by decide)
    · have hs := h.1
      have ht := h.2
      simp [falsy] at hs ht
      simp [start_migration, falsy, hs, ht]

/-- C7 witness: a request missing `source` is rejected with 400, and one
carrying both identifiers is accepted, both at concrete inputs. -/
theorem c7_start_validation_witness :
    start_migration emptyStatus none (some "b") =
      StartResult.badRequest "Source and target are required" ∧
    (∃ s t, (some "a" : Option String) = some s ∧ s ≠ "" ∧
      (some "b" : Option String) = some t ∧ t ≠ "" ∧
      start_migration emptyStatus (some "a") (some "b") = StartResult.accepted s t) :=
  ⟨(c7_start_validation emptyStatus none (some "b")).1 (by decide),
   (c7_start_validation emptyStatus (some "a") (some "b")).2 (by decide)⟩

/-- C8 counterexample: when the status read fails, `load_json_file`
returns the empty document, whose `state` key is absent — not the
`idle` default the claim asserts (`idle` is only written once at server
startup). -/
theorem c8_read_failure_gives_empty_doc :
    (load_status (ReadResult.err "ENOENT")).state = none ∧
    (load_status (ReadResult.err "ENOENT")).state ≠ some "idle" := by
  decide

/-- C8 amended: a failed read yields the empty document (state key
absent, not `idle`) rather than raising; `/api/status` and
`/api/transfers` still answer 200 with default bodies on a failed read,
never a 500; and the `state: idle` record is produced by the startup
initialisation exactly when the file is absent. -/
theorem c8_missing_file_defaults (msg : String) (now : Nat) (prior : JobStatus) :
    load_status (ReadResult.err msg) = emptyStatus ∧
    emptyStatus.state = none ∧
    get_status (ReadResult.err msg) now =
      HttpResult.ok { status := emptyStatus, timestamp := now } ∧
    get_transfers (ReadResult.err msg) =
      HttpResult.ok { transfers := [], total_count := 0, rate := 0 } ∧
    init_status_file false prior = idleStatus ∧
    init_status_file true prior = prior := by
  refine ⟨rfl, rfl, rfl, ?_, rfl, rfl⟩
  simp [get_transfers, load_metrics, emptyMetrics, success_rate]

/-- C9: the `/api/stop` handler is idempotent on the persisted record —
stopping twice equals stopping once — and it leaves the record in state
`stopping` (it is a pure dict update and save; no exception path). -/
theorem c9_stop_idempotent (s : JobStatus) :
    stop_migration (stop_migration s) = stop_migration s ∧
    (stop_migration s).state = some "stopping" :=
  ⟨rfl, rfl⟩

/-- C10: the `/api/stop` handler overwrites only the `state` key of the
loaded record; every other key — including a stale `end_time` or `error`
left over from a previous completed or failed run — is saved back
verbatim. -/
theorem c10_stop_frame (s : JobStatus) :
    (stop_migration s).state = some "stopping" ∧
    (stop_migration s).source = s.source ∧
    (stop_migration s).target = s.target ∧
    (stop_migration s).start_time = s.start_time ∧
    (stop_migration s).end_time = s.end_time ∧
    (stop_migration s).error = s.error :=
  ⟨rfl, rfl, rfl, rfl, rfl, rfl⟩
